import Mathlib

/-!
Verification development for the nanobot agent core.

This file embeds, shallowly, the parts of the nanobot source that the
checked properties speak about:

* `agent/tools/base.py`   — JSON-schema parameter validation (`Tool.validate_params`)
* `agent/tools/registry.py` — `ToolRegistry.execute`
* `agent/loop.py`         — the ReAct loop of `AgentLoop._process_message`,
                            `_process_system_message` and `_consolidate_memory`
* `agent/subagent.py`     — `SubagentManager.spawn` / `_run_subagent` / `_announce_result`
* `agent/tools/filesystem.py` — `_resolve_path` and `ReadFileTool.execute`
* `bus/queue.py`          — `MessageBus.dispatch_outbound`
* `session/manager.py`    — `Session.get_history`, `SessionManager.save` / `_load`

Python values flowing through tool arguments are modelled by `JVal`
(JSON-like data; numbers are modelled as integers, floats are not needed by
any property below, and Python's `bool`-is-an-`int` subtyping is preserved).
Python exceptions are modelled with `Except String`, the carried string being
`str(e)`.  `async` is irrelevant to the properties at hand (all awaited calls
are modelled as oracle functions), so functions are plain.
-/

namespace Nanobot

/-- A Python/JSON value as it appears in tool argument bags
(`dict[str, Any]` parsed from the model's `function.arguments`). -/
inductive JVal : Type where
  | null : JVal
  | bool : Bool → JVal
  | int : Int → JVal
  | str : String → JVal
  | arr : List JVal → JVal
  | obj : List (String × JVal) → JVal
deriving Repr, Inhabited

/-- Association-list lookup, modelling Python `dict[k]` / `k in dict`
on an object's fields (keys are unique in a Python dict). -/
def lookupJ : List (String × JVal) → String → Option JVal
  | [], _ => none
  | (k, v) :: rest, key => if k == key then some v else lookupJ rest key

/-- `k in dict` on an object's fields. -/
def hasKeyJ (fields : List (String × JVal)) (key : String) : Bool :=
  (lookupJ fields key).isSome

mutual
/-- Python `==` on `JVal`s: numeric cross-equality between `bool` and `int`
(`True == 1` in Python), structural equality elsewhere; dict equality is
key-based.  Used by the `enum` membership check of `Tool._validate`. -/
def pyEq : JVal → JVal → Bool
  | .null, .null => true
  | .bool a, .bool b => a == b
  | .bool a, .int n => (if a then (1 : Int) else 0) == n
  | .int n, .bool b => n == (if b then (1 : Int) else 0)
  | .int a, .int b => a == b
  | .str a, .str b => a == b
  | .arr a, .arr b => pyEqList a b
  | .obj a, .obj b => a.length == b.length && pyEqObj a b
  | _, _ => false

/-- Python `==` on lists, elementwise. -/
def pyEqList : List JVal → List JVal → Bool
  | [], [] => true
  | a :: as, b :: bs => pyEq a b && pyEqList as bs
  | _, _ => false

/-- Each field of the first dict is present in the second with an equal
value (combined with a length check this is Python dict equality). -/
def pyEqObj : List (String × JVal) → List (String × JVal) → Bool
  | [], _ => true
  | (k, v) :: rest, b =>
      (match lookupJ b k with
       | some w => pyEq v w
       | none => false) && pyEqObj rest b
end

/-- A JSON-Schema fragment as consumed by `Tool._validate`
(`base.py`): the keys the validator reads — `type`, `enum`, `minimum`,
`maximum`, `minLength`, `maxLength`, `required`, `properties`, `items`.
An absent key is `none` / `[]`. -/
inductive JSchema : Type where
  | mk :
      (type? : Option String) →
      (enum? : Option (List JVal)) →
      (minimum? : Option Int) →
      (maximum? : Option Int) →
      (minLength? : Option Nat) →
      (maxLength? : Option Nat) →
      (required : List String) →
      (properties : List (String × JSchema)) →
      (items? : Option JSchema) →
      JSchema

namespace JSchema

def type? : JSchema → Option String
  | .mk t _ _ _ _ _ _ _ _ => t

def enum? : JSchema → Option (List JVal)
  | .mk _ e _ _ _ _ _ _ _ => e

def minimum? : JSchema → Option Int
  | .mk _ _ m _ _ _ _ _ _ => m

def maximum? : JSchema → Option Int
  | .mk _ _ _ m _ _ _ _ _ => m

def minLength? : JSchema → Option Nat
  | .mk _ _ _ _ m _ _ _ _ => m

def maxLength? : JSchema → Option Nat
  | .mk _ _ _ _ _ m _ _ _ => m

def required : JSchema → List String
  | .mk _ _ _ _ _ _ r _ _ => r

def properties : JSchema → List (String × JSchema)
  | .mk _ _ _ _ _ _ _ p _ => p

def items? : JSchema → Option JSchema
  | .mk _ _ _ _ _ _ _ _ i => i

/-- `{**schema, "type": "object"}` in `validate_params`. -/
def withObjectType : JSchema → JSchema
  | .mk _ e mi ma mil mal r p i => .mk (some "object") e mi ma mil mal r p i

/-- A schema with no constraining keys (the empty dict `{}`). -/
def empty : JSchema := .mk none none none none none none [] [] none

end JSchema

/-- Lookup in a schema's `properties` dict. -/
def lookupSchema : List (String × JSchema) → String → Option JSchema
  | [], _ => none
  | (k, s) :: rest, key => if k == key then some s else lookupSchema rest key

/-- `t in Tool._TYPE_MAP`. -/
def typeInMap (t : String) : Bool :=
  t == "string" || t == "integer" || t == "number" ||
  t == "boolean" || t == "array" || t == "object"

/-- `isinstance(val, Tool._TYPE_MAP[t])`.  As in Python, a `bool` is an
instance of `int` (so it passes "integer" and "number" checks). -/
def isinstanceOf (v : JVal) (t : String) : Bool :=
  if t == "string" then (match v with | .str _ => true | _ => false)
  else if t == "integer" then
    (match v with | .int _ => true | .bool _ => true | _ => false)
  else if t == "number" then
    (match v with | .int _ => true | .bool _ => true | _ => false)
  else if t == "boolean" then (match v with | .bool _ => true | _ => false)
  else if t == "array" then (match v with | .arr _ => true | _ => false)
  else if t == "object" then (match v with | .obj _ => true | _ => false)
  else false

/-- The early-return type check of `_validate`:
`t in self._TYPE_MAP and not isinstance(val, self._TYPE_MAP[t])`. -/
def typeCheckFails (t? : Option String) (v : JVal) : Bool :=
  match t? with
  | some t => typeInMap t && !isinstanceOf v t
  | none => false

/-- Numeric value of a `JVal` known (from a passed type check) to be an
`int` or `bool`, for the `minimum`/`maximum` comparisons. -/
def numOf : JVal → Int
  | .int n => n
  | .bool b => if b then 1 else 0
  | _ => 0

/-- String payload of a `JVal` known to be a `str`, for the length checks. -/
def strOf : JVal → String
  | .str s => s
  | _ => ""

mutual
/-- Python `repr` of a `JVal`, as interpolated by the f-strings of
`_validate`'s error messages (e.g. the `enum` list). -/
def pyRepr : JVal → String
  | .null => "None"
  | .bool b => if b then "True" else "False"
  | .int n => toString n
  | .str s => "'" ++ s ++ "'"
  | .arr xs => "[" ++ pyReprList xs ++ "]"
  | .obj fs => "\x7b" ++ pyReprFields fs ++ "\x7d"

def pyReprList : List JVal → String
  | [] => ""
  | [x] => pyRepr x
  | x :: rest => pyRepr x ++ ", " ++ pyReprList rest

def pyReprFields : List (String × JVal) → String
  | [] => ""
  | [(k, v)] => "'" ++ k ++ "': " ++ pyRepr v
  | (k, v) :: rest => "'" ++ k ++ "': " ++ pyRepr v ++ ", " ++ pyReprFields rest
end

/-- `path + '.' + k if path else k`. -/
def childPath (path k : String) : String :=
  if path == "" then k else path ++ "." ++ k

/-- `f"{path}[{i}]" if path else f"[{i}]"` (both coincide with
`path ++ "[" ++ i ++ "]"`). -/
def itemPath (path : String) (i : Nat) : String :=
  path ++ "[" ++ toString i ++ "]"

/-- `label = path or "parameter"`. -/
def labelOf (path : String) : String :=
  if path == "" then "parameter" else path

/-- The enum membership check of `_validate`
(`if "enum" in schema and val not in schema["enum"]`). -/
def enumErrs (v : JVal) (s : JSchema) (path : String) : List String :=
  match s.enum? with
  | some es =>
      if es.any (fun e => pyEq v e) then []
      else [labelOf path ++ " must be one of " ++ "[" ++ pyReprList es ++ "]"]
  | none => []

/-- The numeric range checks of `_validate` (`minimum`/`maximum`, only
for declared type "integer"/"number"). -/
def numErrs (v : JVal) (s : JSchema) (path : String) : List String :=
  if s.type? == some "integer" || s.type? == some "number" then
    (match s.minimum? with
     | some m => if numOf v < m then [labelOf path ++ " must be >= " ++ toString m] else []
     | none => []) ++
    (match s.maximum? with
     | some m => if numOf v > m then [labelOf path ++ " must be <= " ++ toString m] else []
     | none => [])
  else []

/-- The string length checks of `_validate` (`minLength`/`maxLength`). -/
def strErrs (v : JVal) (s : JSchema) (path : String) : List String :=
  if s.type? == some "string" then
    (match s.minLength? with
     | some n => if (strOf v).length < n then
          [labelOf path ++ " must be at least " ++ toString n ++ " chars"] else []
     | none => []) ++
    (match s.maxLength? with
     | some n => if (strOf v).length > n then
          [labelOf path ++ " must be at most " ++ toString n ++ " chars"] else []
     | none => [])
  else []

/-- The `required`-fields check of `_validate` on an object value. -/
def requiredErrs (required : List String) (fields : List (String × JVal))
    (path : String) : List String :=
  required.filterMap (fun k =>
    if hasKeyJ fields k then none
    else some ("missing required " ++ childPath path k))

mutual
/-- `Tool._validate(val, schema, path)` from `agent/tools/base.py`:
recursive JSON-Schema validation returning the list of error strings,
in the order the Python code accumulates them (enum, numeric range,
string length, object required + per-property recursion, array item
recursion) — unless the early type check fails, which short-circuits
with the single "should be" error. -/
def validate (v : JVal) (s : JSchema) (path : String) : List String :=
  if typeCheckFails s.type? v then
    [labelOf path ++ " should be " ++ s.type?.getD ""]
  else
    enumErrs v s path ++ numErrs v s path ++ strErrs v s path ++
    (if s.type? == some "object" then
      match v with
      | .obj fields =>
          requiredErrs s.required fields path ++ validateFields fields s.properties path
      | _ => []
     else []) ++
    (if s.type? == some "array" then
      match s.items?, v with
      | some isch, .arr items => validateItems items isch path 0
      | _, _ => []
     else [])

/-- The `for k, v in val.items(): if k in props: ...` recursion of
`_validate` over an object's fields. -/
def validateFields (fields : List (String × JVal))
    (props : List (String × JSchema)) (path : String) : List String :=
  match fields with
  | [] => []
  | (k, v2) :: rest =>
      (match lookupSchema props k with
       | some sub => validate v2 sub (childPath path k)
       | none => []) ++ validateFields rest props path

/-- The `for i, item in enumerate(val): ...` recursion of `_validate`
over an array's items. -/
def validateItems (items : List JVal) (isch : JSchema) (path : String)
    (i : Nat) : List String :=
  match items with
  | [] => []
  | x :: rest => validate x isch (itemPath path i) ++ validateItems rest isch path (i + 1)
end

/-- `Tool.validate_params`: raises (`.error`) when the schema's top-level
type is not "object", otherwise runs `_validate` with the type forced to
"object" and the empty path. -/
def validateParams (schema : JSchema) (params : JVal) : Except String (List String) :=
  if schema.type?.getD "object" != "object" then
    .error ("Schema must be object type, got '" ++ schema.type?.getD "" ++ "'")
  else
    .ok (validate params schema.withObjectType "")

/-- A registered tool: name, description, parameter schema and the
`execute(**params)` body.  The body may raise; a raise is `.error (str e)`. -/
structure Tool : Type where
  name : String
  description : String
  parameters : JSchema
  run : JVal → Except String String

/-- The registry's `dict[str, Tool]`, as an insertion-ordered
association list with unique keys (Python dict semantics). -/
abbrev ToolRegistry : Type := List (String × Tool)

/-- `self._tools.get(name)`. -/
def lookupTool : ToolRegistry → String → Option Tool
  | [], _ => none
  | (k, t) :: rest, name => if k == name then some t else lookupTool rest name

/-- `ToolRegistry.register`: `self._tools[tool.name] = tool` — an existing
entry is overwritten in place, otherwise the tool is appended
(Python dict assignment). -/
def registerTool (reg : ToolRegistry) (t : Tool) : ToolRegistry :=
  if (lookupTool reg t.name).isSome then
    reg.map (fun p => if p.1 == t.name then (p.1, t) else p)
  else reg ++ [(t.name, t)]

/-- `ToolRegistry.execute(name, params)` from `agent/tools/registry.py`:
look the tool up (miss → "not found" text), validate the arguments
(errors → "Invalid parameters" text, the body is not consulted),
run the body, and catch any raise — from validation or from the body —
as an "Error executing" text.  Total: it never raises. -/
def registryExecute (reg : ToolRegistry) (name : String) (params : JVal) : String :=
  match lookupTool reg name with
  | none => "Error: Tool '" ++ name ++ "' not found"
  | some tool =>
      match validateParams tool.parameters params with
      | .error e => "Error executing " ++ name ++ ": " ++ e
      | .ok errors =>
          if errors != [] then
            "Error: Invalid parameters for tool '" ++ name ++ "': " ++
              String.intercalate "; " errors
          else
            match tool.run params with
            | .ok r => r
            | .error e => "Error executing " ++ name ++ ": " ++ e

/-! ## Session store (`session/manager.py`) -/

/-- One stored session message, as built by `Session.add_message`:
`{"role": ..., "content": ..., "timestamp": ..., **kwargs}`; the only
keyword argument the loop passes is `tools_used`.  Timestamps are the
`datetime.isoformat()` strings (ISO-8601 round-trips losslessly through
`fromisoformat`, so the string is the faithful carrier). -/
structure SessMsg : Type where
  role : String
  content : String
  timestamp : String
  tools_used : Option (List String)
deriving Repr, DecidableEq

/-- The `Session` dataclass: key, ordered messages, created/updated
timestamps (isoformat strings) and opaque metadata. -/
structure Session : Type where
  key : String
  messages : List SessMsg
  created_at : String
  updated_at : String
  metadata : List (String × String)
deriving Repr, DecidableEq

/-- The on-disk JSONL file written by `SessionManager.save`: the metadata
first record (`_type="metadata"`, created/updated timestamps, metadata) and
one record per message.  `json.dumps`/`json.loads` round-trips each record
verbatim, so the file is carried structurally. -/
structure SessionFile : Type where
  created_at : String
  updated_at : String
  metadata : List (String × String)
  messages : List SessMsg
deriving Repr, DecidableEq

/-- `SessionManager.save`: rewrite the file wholesale — metadata line,
then every message line. -/
def sessionSave (s : Session) : SessionFile :=
  { created_at := s.created_at
    updated_at := s.updated_at
    metadata := s.metadata
    messages := s.messages }

/-- `SessionManager._load` on an existing, well-formed file (the path the
round-trip property exercises): messages and metadata are read back;
`created_at` is parsed back when the stored string is truthy, else it
defaults to `datetime.now()`; `updated_at` is **not** read back at all —
the `Session` dataclass default (`datetime.now()`) applies.  `now` is the
load-time clock value. -/
def sessionLoad (key : String) (file : SessionFile) (now : String) : Session :=
  { key := key
    messages := file.messages
    created_at := if file.created_at != "" then file.created_at else now
    updated_at := now
    metadata := file.metadata }

/-- Python `lst[-k:]` for `k > 0` (and `lst[-0:] = lst`). -/
def pySliceLast {α : Type} (l : List α) (k : Nat) : List α :=
  if k == 0 then l else l.drop (l.length - k)

/-- An entry of `Session.get_history`'s result: exactly the `role` and
`content` fields, nothing else. -/
structure HistEntry : Type where
  role : String
  content : String
deriving Repr, DecidableEq

/-- `Session.get_history(max_messages)`: the most recent `max_messages`
stored messages, projected to `{role, content}`. -/
def Session.get_history (s : Session) (max_messages : Nat) : List HistEntry :=
  let recent :=
    if s.messages.length > max_messages then pySliceLast s.messages max_messages
    else s.messages
  recent.map (fun m => { role := m.role, content := m.content })

/-- The default value of `get_history`'s `max_messages` parameter, used by
the call sites in `agent/loop.py` (which pass no argument). -/
def GET_HISTORY_DEFAULT : Nat := 50

/-! ## LLM messages and responses (`providers/base.py`, `agent/context.py`) -/

/-- `ToolCallRequest`: correlation id, tool name, parsed argument bag.
(`loop.py` serialises `arguments` with `json.dumps` when echoing the call
back in the assistant turn; the parsed value is the faithful carrier.) -/
structure ToolCallRequest : Type where
  id : String
  name : String
  arguments : JVal
deriving Repr

/-- `LLMResponse`: text content, tool-call requests, optional
reasoning side-channel. -/
structure LLMResponse : Type where
  content : Option String
  tool_calls : List ToolCallRequest
  reasoning_content : Option String
deriving Repr

/-- `LLMResponse.has_tool_calls`. -/
def LLMResponse.has_tool_calls (r : LLMResponse) : Bool :=
  r.tool_calls.length > 0

/-- One turn of the LLM message list (a Python dict): `tool_calls = []`
and `none` fields model absent dict keys. -/
structure Msg : Type where
  role : String
  content : String
  tool_calls : List ToolCallRequest
  tool_call_id : Option String
  name : Option String
  reasoning_content : Option String
deriving Repr

/-- A plain `{"role": ..., "content": ...}` dict. -/
def Msg.basic (role content : String) : Msg :=
  { role := role, content := content, tool_calls := [], tool_call_id := none
    name := none, reasoning_content := none }

/-- `ContextBuilder.add_assistant_message`: `content or ""`, tool calls
attached when present, reasoning content round-tripped verbatim. -/
def addAssistantMessage (messages : List Msg) (content : Option String)
    (tool_calls : List ToolCallRequest) (reasoning_content : Option String) : List Msg :=
  messages ++ [{ role := "assistant", content := content.getD ""
                 tool_calls := tool_calls, tool_call_id := none, name := none
                 reasoning_content := reasoning_content }]

/-- `ContextBuilder.add_tool_result`: append one `role="tool"` turn
carrying the correlation id, tool name and result text. -/
def addToolResult (messages : List Msg) (tool_call_id tool_name result : String) : List Msg :=
  messages ++ [{ role := "tool", content := result, tool_calls := []
                 tool_call_id := some tool_call_id, name := some tool_name
                 reasoning_content := none }]

/-- `ContextBuilder.build_messages` for a text-only current message:
`[system prompt][history...][current user message]`.  The system prompt
(identity, bootstrap files, memory, skills, session suffix) is opaque
here — `system_prompt` carries whatever `build_system_prompt` produced. -/
def buildMessages (system_prompt : String) (history : List HistEntry)
    (current_message : String) : List Msg :=
  [Msg.basic "system" system_prompt] ++
    history.map (fun h => Msg.basic h.role h.content) ++
    [Msg.basic "user" current_message]

/-! ## The ReAct loop of `AgentLoop._process_message` (loop.py, step 7) -/

/-- Result of one run of the ReAct `while` loop: the final text (if the
model stopped with plain text), the final value of the `iteration`
counter, the number of `provider.chat` calls made, the final message
list, the message list passed to each chat call (in call order), and the
`tools_used` log. -/
structure ReactResult : Type where
  final_content : Option String
  iteration : Nat
  calls : Nat
  messages : List Msg
  call_inputs : List (List Msg)
  tools_used : List String
deriving Repr

/-- Step 7c: execute the requested tool calls serially in request order,
appending one tool-result turn per request; also extends `tools_used`. -/
def execToolCalls (execute : String → JVal → String) (messages : List Msg) :
    List ToolCallRequest → List Msg × List String
  | [] => (messages, [])
  | tc :: rest =>
      let result := execute tc.name tc.arguments
      let out := execToolCalls execute (addToolResult messages tc.id tc.name result) rest
      (out.1, tc.name :: out.2)

/-- The `while iteration < max_iterations` ReAct loop.  `provider` is the
inference oracle for this loop run, indexed by the number of chat calls
already made; `execute` is `self.tools.execute`. -/
def runReact (provider : Nat → LLMResponse) (execute : String → JVal → String)
    (max_iterations : Nat) (messages : List Msg) (iteration : Nat) : ReactResult :=
  if _h : iteration < max_iterations then
    let response := provider iteration
    if response.has_tool_calls then
      let msgs1 := addAssistantMessage messages response.content response.tool_calls
        response.reasoning_content
      let out := execToolCalls execute msgs1 response.tool_calls
      let msgs3 := out.1 ++ [Msg.basic "user" "Reflect on the results and decide next steps."]
      let rest := runReact provider execute max_iterations msgs3 (iteration + 1)
      { rest with
          calls := rest.calls + 1
          call_inputs := messages :: rest.call_inputs
          tools_used := out.2 ++ rest.tools_used }
    else
      { final_content := response.content, iteration := iteration + 1, calls := 1
        messages := messages, call_inputs := [messages], tools_used := [] }
  else
    { final_content := none, iteration := iteration, calls := 0
      messages := messages, call_inputs := [], tools_used := [] }
termination_by max_iterations - iteration
decreasing_by omega

/-! ## Memory consolidation (`AgentLoop._consolidate_memory`) -/

/-- The two memory files managed by `MemoryStore`: the overwritable
`MEMORY.md` blob (empty string when absent) and the append-only
`HISTORY.md` entry list. -/
structure MemFiles : Type where
  long_term : String
  history : List String
deriving Repr, DecidableEq

/-- The JSON object the consolidation prompt asks the model for
(`result.get` yields `none` for an absent key). -/
structure ConsOut : Type where
  history_entry : Option String
  memory_update : Option String
deriving Repr

/-- The fallible external steps of one `_consolidate_memory` call:
the `provider.chat` outcome (`.error` = inference raised, `.ok` = the
response's content, `""` when `None`), the `json.loads` outcome on the
cleaned text, and whether each of the three file writes raises. -/
structure ConsolidateEnv : Type where
  chat : Except String String
  parse : String → Except String ConsOut
  append_history_raises : Bool
  write_long_term_raises : Bool
  save_raises : Bool

/-- Mutable state touched by `_consolidate_memory`: the live session's
message list, the memory files, the persisted session file's messages,
plus counters for the claims (chat calls made, whether the `except`
branch logged a fault). -/
structure ConsolidateState : Type where
  session_messages : List SessMsg
  mem : MemFiles
  disk_messages : List SessMsg
  chat_calls : Nat
  logged_error : Bool
deriving Repr

/-- `s.split(sep, 1)[-1]`. -/
def pySplitOnceTail (sep s : String) : String :=
  match s.splitOn sep with
  | [] => s
  | [x] => x
  | _ :: rest => String.intercalate sep rest

/-- `s.rsplit(sep, 1)[0]`. -/
def pyRsplitOnceHead (sep s : String) : String :=
  match s.splitOn sep with
  | [] => s
  | [x] => x
  | parts => String.intercalate sep parts.dropLast

/-- The markdown-fence cleanup applied to the model's reply:
`text.split("\n", 1)[-1].rsplit("```", 1)[0].strip()` when the stripped
text starts with a fence. -/
def stripFences (raw : String) : String :=
  let text := raw.trim
  if text.startsWith "```" then
    (pyRsplitOnceHead "```" (pySplitOnceTail "\n" text)).trim
  else text

/-- `keep_count`: `0` on full archive, else
`min(10, max(2, memory_window // 2))`. -/
def keepCount (memory_window : Nat) (archive_all : Bool) : Nat :=
  if archive_all then 0 else min 10 (max 2 (memory_window / 2))

/-- Python truthiness of `result.get(key)` for an optional string. -/
def truthyOpt (o : Option String) : Bool :=
  match o with
  | some s => s != ""
  | none => false

/-- `AgentLoop._consolidate_memory(session, archive_all)`.  The message
formatting and the consolidation prompt feed only the oracle `env.chat`
and are therefore folded into it.  Every raise inside the `try` is caught
by the trailing `except` (which only logs), so the function is total;
effects performed before the raising step persist. -/
def consolidate (env : ConsolidateEnv) (memory_window : Nat) (archive_all : Bool)
    (st : ConsolidateState) : ConsolidateState :=
  if st.session_messages.isEmpty then st
  else
    let keep := keepCount memory_window archive_all
    let old :=
      if archive_all then st.session_messages
      else st.session_messages.take (st.session_messages.length - keep)
    if old.isEmpty then st
    else
      match env.chat with
      | .error _ => { st with chat_calls := st.chat_calls + 1, logged_error := true }
      | .ok raw =>
          let st1 := { st with chat_calls := st.chat_calls + 1 }
          match env.parse (stripFences raw) with
          | .error _ => { st1 with logged_error := true }
          | .ok result =>
              let entry := (result.history_entry).getD ""
              if truthyOpt result.history_entry && env.append_history_raises then
                { st1 with logged_error := true }
              else
                let st2 :=
                  if truthyOpt result.history_entry then
                    { st1 with mem := { st1.mem with history := st1.mem.history ++ [entry] } }
                  else st1
                let upd := (result.memory_update).getD ""
                let updNeeded := truthyOpt result.memory_update && upd != st.mem.long_term
                if updNeeded && env.write_long_term_raises then
                  { st2 with logged_error := true }
                else
                  let st3 :=
                    if updNeeded then { st2 with mem := { st2.mem with long_term := upd } }
                    else st2
                  let trimmed := if keep == 0 then [] else pySliceLast st.session_messages keep
                  let st4 := { st3 with session_messages := trimmed }
                  if env.save_raises then { st4 with logged_error := true }
                  else { st4 with disk_messages := trimmed }

/-! ## `AgentLoop._process_message` (control flow and call accounting) -/

/-- Result of one `_process_message` run: the total number of
`provider.chat` calls made (ReAct loop plus any synchronous memory
consolidation), the ReAct-loop record when the loop ran, the session
state after any consolidation, and the outbound text. -/
structure ProcessResult : Type where
  total_chat_calls : Nat
  react : Option ReactResult
  session_messages : List SessMsg
  response_content : Option String
deriving Repr

/-- Python `s.strip()`: drop whitespace from both ends. -/
def pyStrip (s : String) : String :=
  String.mk (((s.data.dropWhile Char.isWhitespace).reverse.dropWhile
    Char.isWhitespace).reverse)

/-- Python `s.lower()`: lowercase each character. -/
def pyLower (s : String) : String :=
  String.mk (s.data.map Char.toLower)

/-- The fallback texts of step 8 of `_process_message`. -/
def finalContentOf (r : ReactResult) (max_iterations : Nat) : String :=
  match r.final_content with
  | some c => c
  | none =>
      if r.iteration ≥ max_iterations then
        "Reached " ++ toString max_iterations ++ " iterations without completion."
      else "I've completed processing but have no response to give."

/-- The consolidation state a `_process_message` run starts from: the
live session's messages and memory files, no chat calls yet. -/
def initialConsState (session : Session) (mem0 : MemFiles) : ConsolidateState :=
  { session_messages := session.messages, mem := mem0
    disk_messages := session.messages, chat_calls := 0, logged_error := false }

/-- Step 4 of `_process_message`: run memory consolidation synchronously
when the session is over the `memory_window` threshold. -/
def preLoopState (env : ConsolidateEnv) (memory_window : Nat) (session : Session)
    (mem0 : MemFiles) : ConsolidateState :=
  if session.messages.length > memory_window then
    consolidate env memory_window false (initialConsState session mem0)
  else initialConsState session mem0

/-- Step 6 of `_process_message`: the message list handed to the first
inference call — built from `session.get_history()` (default window) on
the possibly consolidated session. -/
def loopMessages (env : ConsolidateEnv) (memory_window : Nat)
    (system_prompt content : String) (session : Session) (mem0 : MemFiles) : List Msg :=
  buildMessages system_prompt
    (Session.get_history
      { session with messages := (preLoopState env memory_window session mem0).session_messages }
      GET_HISTORY_DEFAULT)
    content

/-- `AgentLoop._process_message` for a non-system inbound message
(the `channel == "system"` branch is covered by `processSystemRouting`):
slash-command interception on `msg.content.strip().lower()`,
threshold-triggered synchronous memory consolidation, context build
(`session.get_history()` with its default window), the ReAct loop, and
the fallback texts.  `system_prompt` is the opaque output of
`build_system_prompt` plus the session suffix. -/
def processMessage (provider : Nat → LLMResponse) (execute : String → JVal → String)
    (env : ConsolidateEnv) (max_iterations memory_window : Nat)
    (system_prompt content : String) (session : Session) (mem0 : MemFiles) :
    ProcessResult :=
  if pyLower (pyStrip content) == "/new" then
    let st1 := consolidate env memory_window true (initialConsState session mem0)
    { total_chat_calls := st1.chat_calls, react := none, session_messages := []
      response_content := some "🐈 New session started. Memory consolidated." }
  else if pyLower (pyStrip content) == "/help" then
    { total_chat_calls := 0, react := none, session_messages := session.messages
      response_content := some "🐈 nanobot commands:\n/new — Start a new conversation\n/help — Show available commands" }
  else
    let st1 := preLoopState env memory_window session mem0
    let r := runReact provider execute max_iterations
      (loopMessages env memory_window system_prompt content session mem0) 0
    { total_chat_calls := st1.chat_calls + r.calls
      react := some r
      session_messages := st1.session_messages
      response_content := some (finalContentOf r max_iterations) }

/-! ## Filesystem tool sandbox (`agent/tools/filesystem.py`) -/

/-- The filesystem as the tool code observes it: `resolve` is
`Path(p).expanduser().resolve()` (canonicalisation is
environment-determined, hence an oracle), plus existence / file-kind /
content queries keyed by resolved path. -/
structure FileSystem : Type where
  resolve : String → String
  pathExists : String → Bool
  is_file : String → Bool
  read_text : String → String

/-- Python `s.startswith(pre)`: character-wise prefix test. -/
def pyStartswith (s pre : String) : Bool :=
  pre.data.isPrefixOf s.data

/-- `_resolve_path(path, allowed_dir)`: resolve, then raise
`PermissionError` when a sandbox directory is configured and the resolved
path does not start with the resolved sandbox prefix. -/
def resolvePath (fs : FileSystem) (path : String) (allowed_dir : Option String) :
    Except String String :=
  let resolved := fs.resolve path
  match allowed_dir with
  | some ad =>
      if !pyStartswith resolved (fs.resolve ad) then
        .error ("Path " ++ path ++ " is outside allowed directory " ++ ad)
      else .ok resolved
  | none => .ok resolved

/-- `ReadFileTool.execute(path)`: every raise from `_resolve_path` is
caught and rendered as `"Error: ..."` text (reading a present regular
file is modelled as always succeeding; its failure branch returns an
`"Error reading file: ..."` text and is not load-bearing here). -/
def readFileExecute (fs : FileSystem) (allowed_dir : Option String) (path : String) :
    String :=
  match resolvePath fs path allowed_dir with
  | .error e => "Error: " ++ e
  | .ok fp =>
      if !fs.pathExists fp then "Error: File not found: " ++ path
      else if !fs.is_file fp then "Error: Not a file: " ++ path
      else fs.read_text fp

/-- `ReadFileTool.parameters`. -/
def readFileSchema : JSchema :=
  .mk (some "object") none none none none none ["path"]
    [("path", .mk (some "string") none none none none none [] [] none)] none

/-- `ReadFileTool` as a registry entry; after validation the `path`
argument is a string and is handed to `execute` as a keyword argument. -/
def readFileTool (fs : FileSystem) (allowed_dir : Option String) : Tool :=
  { name := "read_file"
    description := "Read the contents of a file at the given path."
    parameters := readFileSchema
    run := fun args =>
      match args with
      | .obj fields =>
          match lookupJ fields "path" with
          | some (.str p) => .ok (readFileExecute fs allowed_dir p)
          | _ => .error "execute() missing required argument: 'path'"
      | _ => .error "arguments are not a mapping" }

/-! ## Background-delegate origin routing (`subagent.py`, `loop.py`) -/

/-- Python `s.split(":", 1)` on character lists, successful only when a
colon occurs: the part before the first `':'` and everything after it. -/
def splitFirstColon : List Char → Option (List Char × List Char)
  | [] => none
  | c :: rest =>
      if c = ':' then some ([], rest)
      else
        match splitFirstColon rest with
        | some (a, b) => some (c :: a, b)
        | none => none

/-- The origin-recovery step of `_process_system_message`:
split the composite `chat_id` on the first `':'`; with no colon, fall
back to `("cli", chat_id)`. -/
def systemRouting (chat_id : String) : String × String :=
  match splitFirstColon chat_id.data with
  | some (a, b) => (String.mk a, String.mk b)
  | none => ("cli", chat_id)

/-- The routing decisions `_process_system_message` derives from the
inbound `chat_id`: recovered origin channel, origin chat id, and the
session key `f"{origin_channel}:{origin_chat_id}"` under which the turn
is processed; the outbound reply goes to `(origin_channel,
origin_chat_id)`. -/
def processSystemRouting (chat_id : String) : String × String × String :=
  let origin := systemRouting chat_id
  (origin.1, origin.2, origin.1 ++ ":" ++ origin.2)

/-! ## Background task delegate (`agent/subagent.py`) -/

/-- The `InboundMessage` a delegate publishes on completion. -/
structure Announcement : Type where
  channel : String
  sender_id : String
  chat_id : String
  content : String
deriving Repr, DecidableEq

/-- `SubagentManager._announce_result`: one system-channel inbound
message whose `chat_id` is the composite `"<origin-channel>:<origin-chat-id>"`
and whose content carries the completed/failed tag and the summarising
instruction. -/
def announceResult (label task result : String) (origin : String × String)
    (status : String) : Announcement :=
  let status_text := if status == "ok" then "completed successfully" else "failed"
  { channel := "system"
    sender_id := "subagent"
    chat_id := origin.1 ++ ":" ++ origin.2
    content := "[Subagent '" ++ label ++ "' " ++ status_text ++ "]\n\nTask: " ++ task ++
      "\n\nResult:\n" ++ result ++
      "\n\nSummarize this naturally for the user. Keep it brief (1-2 sentences). Do not mention technical details like \"subagent\" or task IDs." }

/-- The delegate's iteration ceiling (`max_iterations = 15` in
`_run_subagent`). -/
def SUBAGENT_MAX_ITERATIONS : Nat := 15

/-- The delegate's own bounded loop.  Its inference oracle may raise
(`.error`), which propagates out of the loop to `_run_subagent`'s
`except`; tool execution goes through a `ToolRegistry` and never raises. -/
def runSubLoop (provider : Nat → Except String LLMResponse)
    (execute : String → JVal → String) (max_iterations : Nat)
    (messages : List Msg) (iteration : Nat) : Except String (Option String) :=
  if _h : iteration < max_iterations then
    match provider iteration with
    | .error e => .error e
    | .ok response =>
        if response.has_tool_calls then
          let msgs1 := addAssistantMessage messages response.content response.tool_calls
            response.reasoning_content
          let out := execToolCalls execute msgs1 response.tool_calls
          runSubLoop provider execute max_iterations out.1 (iteration + 1)
        else .ok response.content
  else .ok none
termination_by max_iterations - iteration
decreasing_by omega

/-- `SubagentManager._run_subagent`: run the delegate loop; on normal
completion announce the result with status `"ok"` (with the fallback
text when the loop produced no final text), on any raise announce
`f"Error: {e}"` with status `"error"`.  The return value is the list of
announcements published on the bus — always exactly one. -/
def runSubagent (provider : Nat → Except String LLMResponse)
    (execute : String → JVal → String) (system_prompt task label : String)
    (origin : String × String) : List Announcement :=
  let messages := [Msg.basic "system" system_prompt, Msg.basic "user" task]
  match runSubLoop provider execute SUBAGENT_MAX_ITERATIONS messages 0 with
  | .ok r =>
      [announceResult label task
        (r.getD "Task completed but no final response was generated.") origin "ok"]
  | .error e =>
      [announceResult label task ("Error: " ++ e) origin "error"]

/-- `self._running_tasks[task_id] = bg_task` (dict assignment on the
key set of the live-delegate map). -/
def tasksInsert (keys : List String) (k : String) : List String :=
  if keys.contains k then keys else keys ++ [k]

/-- `self._running_tasks.pop(task_id, None)` — the done-callback. -/
def tasksPop (keys : List String) (k : String) : List String :=
  keys.filter (fun x => x != k)

/-! ## Outbound dispatch (`bus/queue.py`, `MessageBus.dispatch_outbound`) -/

/-- The `OutboundMessage` envelope (the fields dispatch touches). -/
structure OutboundMessage : Type where
  channel : String
  chat_id : String
  content : String
deriving Repr, DecidableEq

/-- The subscriber registry `dict[str, list[callback]]`; a callback may
raise (`.error` carries `str(e)`). -/
abbrev Subscribers : Type := List (String × List (OutboundMessage → Except String Unit))

/-- `self._outbound_subscribers.get(channel)`. -/
def lookupCallbacks : Subscribers → String → Option (List (OutboundMessage → Except String Unit))
  | [], _ => none
  | (k, cbs) :: rest, ch => if k == ch then some cbs else lookupCallbacks rest ch

/-- What the dispatch of one message did: which callback positions were
invoked with the message, the `logger.error` lines, and the
`logger.warning` lines. -/
structure DispatchLog : Type where
  invoked : List Nat
  errors_logged : List String
  warnings_logged : List String
deriving Repr, DecidableEq

/-- The `for callback in subscribers` body: every callback is invoked;
a raise is caught and logged, and iteration continues. -/
def runCallbacks (msg : OutboundMessage) :
    List (OutboundMessage → Except String Unit) → Nat → List Nat × List String
  | [], _ => ([], [])
  | cb :: rest, i =>
      let out := runCallbacks msg rest (i + 1)
      match cb msg with
      | .ok _ => (i :: out.1, out.2)
      | .error e => (i :: out.1, ("Error dispatching to " ++ msg.channel ++ ": " ++ e) :: out.2)

/-- One iteration of `dispatch_outbound` for one dequeued message:
`subscribers = self._outbound_subscribers.get(msg.channel, [])`, then the
per-callback loop.  There is no `logger.warning` call anywhere in it. -/
def dispatchOne (subs : Subscribers) (msg : OutboundMessage) : DispatchLog :=
  let cbs := (lookupCallbacks subs msg.channel).getD []
  let out := runCallbacks msg cbs 0
  { invoked := out.1, errors_logged := out.2, warnings_logged := [] }

/-! ## Concrete fixtures used by witnesses and counterexamples -/

/-- A tool whose `execute` body always raises. -/
def boomTool : Tool :=
  { name := "boom", description := "always raises", parameters := JSchema.empty
    run := fun _ => .error "boom" }

/-- A registry holding just `boomTool`. -/
def boomReg : ToolRegistry := registerTool [] boomTool

/-! ## Claim theorems -/

/-- C1: `ToolRegistry.execute` is total — it returns a string for every
tool name and argument bag, never raising: a missing tool yields the
`"Error: Tool '<name>' not found"` text; a raise from argument
validation or from the tool's `execute` body is caught and rendered as
an `"Error executing <name>: <e>"` text. -/
theorem registry_execute_total_and_error_texts
    (reg : ToolRegistry) (name : String) (params : JVal) :
    (lookupTool reg name = none →
      registryExecute reg name params = "Error: Tool '" ++ name ++ "' not found") ∧
    (∀ t e, lookupTool reg name = some t →
      validateParams t.parameters params = .error e →
      registryExecute reg name params = "Error executing " ++ name ++ ": " ++ e) ∧
    (∀ t e, lookupTool reg name = some t →
      validateParams t.parameters params = .ok [] →
      t.run params = .error e →
      registryExecute reg name params = "Error executing " ++ name ++ ": " ++ e) ∧
    (∃ s : String, registryExecute reg name params = s) := by
  refine ⟨?_, ?_, ?_, ⟨_, rfl⟩⟩ <;> intros <;> simp [registryExecute, *]

/-- C1 witness: the missing-tool and raising-tool texts at concrete
inputs. -/
theorem registry_execute_total_and_error_texts_witness :
    registryExecute [] "web" (.obj []) = "Error: Tool 'web' not found" ∧
    registryExecute boomReg "boom" (.obj []) = "Error executing boom: boom" := by
  constructor
  · exact (registry_execute_total_and_error_texts [] "web" (.obj [])).1 rfl
  · exact (registry_execute_total_and_error_texts boomReg "boom" (.obj [])).2.2.1
      boomTool "boom" rfl rfl rfl

/-! ## Helper lemmas -/

/-- Fuel-indexed bound on the ReAct loop: at most `max_iterations - i`
chat calls remain from iteration `i`, and the iteration counter advances
by exactly the number of calls made. -/
theorem runReact_calls_iter_aux (provider : Nat → LLMResponse)
    (execute : String → JVal → String) (mi : Nat) :
    ∀ (n : Nat) (msgs : List Msg) (i : Nat), mi - i ≤ n →
      (runReact provider execute mi msgs i).calls ≤ mi - i ∧
      (runReact provider execute mi msgs i).iteration =
        i + (runReact provider execute mi msgs i).calls := by
  intro n
  induction n with
  | zero =>
      intro msgs i h
      have hi : ¬ i < mi := by omega
      rw [runReact]
      simp [hi]
  | succ n ih =>
      intro msgs i h
      rw [runReact]
      by_cases hi : i < mi
      · simp only [dif_pos hi]
        by_cases htc : (provider i).has_tool_calls = true
        · rw [if_pos htc]
          obtain ⟨h1, h2⟩ := ih ((execToolCalls execute
              (addAssistantMessage msgs (provider i).content (provider i).tool_calls
                (provider i).reasoning_content) (provider i).tool_calls).1 ++
              [Msg.basic "user" "Reflect on the results and decide next steps."])
            (i + 1) (by omega)
          set R := runReact provider execute mi ((execToolCalls execute
              (addAssistantMessage msgs (provider i).content (provider i).tool_calls
                (provider i).reasoning_content) (provider i).tool_calls).1 ++
              [Msg.basic "user" "Reflect on the results and decide next steps."]) (i + 1) with hR
          refine ⟨?_, ?_⟩
          · exact (show R.calls + 1 ≤ mi - i by omega)
          · exact (show R.iteration = i + (R.calls + 1) by omega)
        · rw [if_neg htc]
          exact ⟨(show (1 : Nat) ≤ mi - i by omega), rfl⟩
      · simp only [dif_neg hi]
        exact ⟨(show (0 : Nat) ≤ mi - i by omega), (show i = i + 0 by omega)⟩

/-- The ReAct loop from iteration `i` makes at most `mi - i` chat calls
and its counter ends at `i + calls`. -/
theorem runReact_calls_iter (provider : Nat → LLMResponse)
    (execute : String → JVal → String) (mi : Nat) (msgs : List Msg) (i : Nat) :
    (runReact provider execute mi msgs i).calls ≤ mi - i ∧
    (runReact provider execute mi msgs i).iteration =
      i + (runReact provider execute mi msgs i).calls :=
  runReact_calls_iter_aux provider execute mi (mi - i) msgs i (Nat.le_refl _)

/-- One `_consolidate_memory` call makes at most one inference call. -/
theorem consolidate_calls_le (env : ConsolidateEnv) (w : Nat) (a : Bool)
    (st : ConsolidateState) :
    (consolidate env w a st).chat_calls ≤ st.chat_calls + 1 := by
  unfold consolidate
  repeat' split
  all_goals (try simp_arith [apply_ite ConsolidateState.chat_calls])
  all_goals (split_ifs <;> omega)

/-- The pre-loop consolidation makes at most one inference call. -/
theorem preLoopState_calls_le (env : ConsolidateEnv) (w : Nat) (session : Session)
    (mem0 : MemFiles) : (preLoopState env w session mem0).chat_calls ≤ 1 := by
  unfold preLoopState
  split_ifs
  · exact consolidate_calls_le env w false (initialConsState session mem0)
  · exact Nat.zero_le 1

/-- C3: one `_process_message` run makes at most `max_iterations + 1`
inference calls in total (the ReAct loop's calls plus at most one from a
synchronously triggered memory consolidation, on either the threshold or
the `/new` path); the ReAct loop itself makes at most `max_iterations`
calls, and its `iteration` counter ends at exactly its start value plus
the number of calls — one increment per inference call. -/
theorem inference_calls_bounded (provider : Nat → LLMResponse)
    (execute : String → JVal → String) (env : ConsolidateEnv)
    (mi w : Nat) (sp content : String) (session : Session) (mem0 : MemFiles) :
    (processMessage provider execute env mi w sp content session mem0).total_chat_calls
      ≤ mi + 1 ∧
    (∀ (msgs : List Msg) (i : Nat),
      (runReact provider execute mi msgs i).calls ≤ mi ∧
      (runReact provider execute mi msgs i).iteration =
        i + (runReact provider execute mi msgs i).calls) := by
  constructor
  · unfold processMessage
    split
    · have h1 := consolidate_calls_le env w true (initialConsState session mem0)
      have h0 : (initialConsState session mem0).chat_calls = 0 := rfl
      exact (show (consolidate env w true (initialConsState session mem0)).chat_calls
        ≤ mi + 1 by omega)
    · split
      · exact Nat.zero_le _
      · have h1 := preLoopState_calls_le env w session mem0
        have h2 := (runReact_calls_iter provider execute mi
          (loopMessages env w sp content session mem0) 0).1
        exact (show (preLoopState env w session mem0).chat_calls +
          (runReact provider execute mi
            (loopMessages env w sp content session mem0) 0).calls ≤ mi + 1 by omega)
  · intro msgs i
    have h := runReact_calls_iter provider execute mi msgs i
    exact ⟨by omega, h.2⟩

/-- A concrete session used by counterexamples and witnesses. -/
def demoSession : Session :=
  { key := "telegram:42"
    messages :=
      [{ role := "user", content := "hello", timestamp := "2024-01-01T10:00:01", tools_used := none },
       { role := "assistant", content := "hi", timestamp := "2024-01-01T10:00:02"
         tools_used := some ["read_file"] }]
    created_at := "2024-01-01T10:00:00"
    updated_at := "2024-01-01T10:00:02"
    metadata := [] }

/-- C4 counterexample: saving `demoSession` and reloading it from disk at
a later clock value does **not** yield an identical session — `_load`
never reads the stored `updated_at` back, so the reloaded session's
`updated_at` is the load-time clock, not the saved timestamp. -/
theorem session_roundtrip_not_identical :
    sessionLoad demoSession.key (sessionSave demoSession) "2024-06-01T12:00:00"
      ≠ demoSession ∧
    (sessionLoad demoSession.key (sessionSave demoSession) "2024-06-01T12:00:00").updated_at
      ≠ demoSession.updated_at := by
  constructor <;> decide

/-- C4 (amended): save-then-reload restores the key, the ordered message
list (with every per-message timestamp), `created_at` and the metadata
exactly; `updated_at` is not restored — it becomes the load-time clock. -/
theorem session_roundtrip_messages_created_at (s : Session) (now : String)
    (h : s.created_at ≠ "") :
    (sessionLoad s.key (sessionSave s) now).key = s.key ∧
    (sessionLoad s.key (sessionSave s) now).messages = s.messages ∧
    (sessionLoad s.key (sessionSave s) now).created_at = s.created_at ∧
    (sessionLoad s.key (sessionSave s) now).metadata = s.metadata ∧
    (sessionLoad s.key (sessionSave s) now).updated_at = now := by
  have hb : (s.created_at != "") = true := bne_iff_ne.mpr h
  refine ⟨rfl, rfl, ?_, rfl, rfl⟩
  simp [sessionLoad, sessionSave, hb]

/-- C4 witness: the amended round-trip at the concrete session. -/
theorem session_roundtrip_messages_created_at_witness :
    (sessionLoad demoSession.key (sessionSave demoSession) "2024-06-01T12:00:00").messages
      = demoSession.messages ∧
    (sessionLoad demoSession.key (sessionSave demoSession) "2024-06-01T12:00:00").created_at
      = demoSession.created_at :=
  ⟨(session_roundtrip_messages_created_at demoSession "2024-06-01T12:00:00"
      (by decide)).2.1,
   (session_roundtrip_messages_created_at demoSession "2024-06-01T12:00:00"
      (by decide)).2.2.1⟩

/-- Every callback in the subscriber list is invoked, in order,
regardless of raises; the logged errors are exactly those of the raising
callbacks. -/
theorem runCallbacks_all_invoked (msg : OutboundMessage) :
    ∀ (cbs : List (OutboundMessage → Except String Unit)) (i : Nat),
      (runCallbacks msg cbs i).1 = List.range' i cbs.length ∧
      (runCallbacks msg cbs i).2 = cbs.filterMap (fun cb =>
        match cb msg with
        | .ok _ => none
        | .error e => some ("Error dispatching to " ++ msg.channel ++ ": " ++ e)) := by
  intro cbs
  induction cbs with
  | nil => intro i; exact ⟨rfl, rfl⟩
  | cons cb rest ih =>
      intro i
      obtain ⟨h1, h2⟩ := ih (i + 1)
      simp only [runCallbacks]
      cases hcb : cb msg <;>
        simp [hcb, h1, h2, List.range'_succ, List.filterMap_cons]

/-- A concrete outbound message. -/
def demoOutMsg : OutboundMessage :=
  { channel := "telegram", chat_id := "42", content := "hi" }

/-- A callback that always raises. -/
def cbRaise : OutboundMessage → Except String Unit := fun _ => .error "boom"

/-- A callback that always succeeds. -/
def cbOk : OutboundMessage → Except String Unit := fun _ => .ok ()

/-- A subscriber registry with two callbacks on "telegram", the first of
which raises. -/
def demoSubs : Subscribers := [("telegram", [cbRaise, cbOk])]

/-- C5 counterexample: dispatching a message whose channel has no
registered subscriber drops it **silently** — no callback is invoked and
no `logger.warning` line is emitted (the dispatch loop contains no
warning call), contradicting the claimed warning. -/
theorem dispatch_unknown_channel_silent :
    (dispatchOne [] demoOutMsg).invoked = [] ∧
    (dispatchOne [] demoOutMsg).warnings_logged = [] :=
  ⟨rfl, rfl⟩

/-- C5 (amended): a message whose channel has no subscriber entry is
dropped without invoking anything and without any log line (no warning);
when the channel has callbacks, every callback is invoked with the
message, in order, regardless of raises — a raising callback's error is
caught and logged and the remaining callbacks still receive the
message. -/
theorem dispatch_drop_and_callback_isolation (subs : Subscribers)
    (msg : OutboundMessage) :
    (lookupCallbacks subs msg.channel = none →
      dispatchOne subs msg =
        { invoked := [], errors_logged := [], warnings_logged := [] }) ∧
    (∀ cbs, lookupCallbacks subs msg.channel = some cbs →
      (dispatchOne subs msg).invoked = List.range cbs.length ∧
      (dispatchOne subs msg).errors_logged = cbs.filterMap (fun cb =>
        match cb msg with
        | .ok _ => none
        | .error e => some ("Error dispatching to " ++ msg.channel ++ ": " ++ e)) ∧
      (dispatchOne subs msg).warnings_logged = []) := by
  constructor
  · intro h
    simp [dispatchOne, h, runCallbacks]
  · intro cbs h
    obtain ⟨h1, h2⟩ := runCallbacks_all_invoked msg cbs 0
    refine ⟨?_, ?_, rfl⟩
    · simp [dispatchOne, h, h1, List.range_eq_range']
    · simp [dispatchOne, h, h2]

/-- C5 witness: with two subscribers on the channel and the first
raising, both callbacks are invoked and exactly the raise is logged. -/
theorem dispatch_drop_and_callback_isolation_witness :
    (dispatchOne demoSubs demoOutMsg).invoked = [0, 1] ∧
    (dispatchOne demoSubs demoOutMsg).errors_logged =
      ["Error dispatching to telegram: boom"] := by
  have h := (dispatch_drop_and_callback_isolation demoSubs demoOutMsg).2
    [cbRaise, cbOk] rfl
  refine ⟨?_, ?_⟩
  · rw [h.1]; rfl
  · rw [h.2.1]; rfl

/-- Splitting on the first colon undoes prepending `a ++ ':'` when `a`
is colon-free. -/
theorem splitFirstColon_append (a b : List Char) (h : ':' ∉ a) :
    splitFirstColon (a ++ ':' :: b) = some (a, b) := by
  induction a with
  | nil => simp [splitFirstColon]
  | cons c rest ih =>
      have hc : ¬ c = ':' := fun e => h (e ▸ List.mem_cons_self c rest)
      have hrest : ':' ∉ rest := fun m => h (List.mem_cons_of_mem c m)
      simp [splitFirstColon, hc, ih hrest]

/-- C8: a delegate announcement for origin `(C, V)` carries the composite
conversation id `C ++ ":" ++ V`, and — whenever `C` is colon-free, for
every `V` including colon-containing ones — `_process_system_message`
recovers exactly `(C, V)` by splitting on the first `":"`, routes the
reply to channel `C` and conversation `V`, and processes the turn under
session key `C ++ ":" ++ V`. -/
theorem origin_encoding_roundtrip (C V label task result status : String)
    (h : ':' ∉ C.data) :
    (announceResult label task result (C, V) status).chat_id = C ++ ":" ++ V ∧
    processSystemRouting (C ++ ":" ++ V) = (C, V, C ++ ":" ++ V) := by
  refine ⟨rfl, ?_⟩
  unfold processSystemRouting systemRouting
  have hd : (C ++ ":" ++ V).data = C.data ++ ':' :: V.data := by
    show (C.data ++ ":".data) ++ V.data = C.data ++ ':' :: V.data
    simp
  rw [hd, splitFirstColon_append C.data V.data h]

/-- C8 witness: origin channel "telegram" with a conversation id that
itself contains a colon. -/
theorem origin_encoding_roundtrip_witness :
    (announceResult "lbl" "task" "done" ("telegram", "4:2") "ok").chat_id
      = "telegram:4:2" ∧
    processSystemRouting "telegram:4:2" = ("telegram", "4:2", "telegram:4:2") := by
  have h := origin_encoding_roundtrip "telegram" "4:2" "lbl" "task" "done" "ok"
    (by decide)
  exact ⟨h.1, h.2⟩

/-- C7: a spawned delegate publishes exactly one announcement whether its
run completes normally or raises; a raise is rendered as a textual
`"Error: ..."` failure announcement (status `"error"`, tagged "failed")
rather than lost; and since the task record self-removes on completion
(`pop` in the done-callback), a fresh task id's insert-then-remove
returns the live-delegate map to its pre-spawn key set and count. -/
theorem subagent_one_announcement_and_count_restored
    (provider : Nat → Except String LLMResponse) (execute : String → JVal → String)
    (sp task label : String) (origin : String × String) :
    (runSubagent provider execute sp task label origin).length = 1 ∧
    (∀ e, runSubLoop provider execute SUBAGENT_MAX_ITERATIONS
        [Msg.basic "system" sp, Msg.basic "user" task] 0 = .error e →
      runSubagent provider execute sp task label origin =
        [announceResult label task ("Error: " ++ e) origin "error"]) ∧
    (∀ (running : List String) (id : String), running.contains id = false →
      tasksPop (tasksInsert running id) id = running ∧
      (tasksPop (tasksInsert running id) id).length = running.length) := by
  refine ⟨?_, ?_, ?_⟩
  · unfold runSubagent
    cases h : runSubLoop provider execute SUBAGENT_MAX_ITERATIONS
      [Msg.basic "system" sp, Msg.basic "user" task] 0 <;> simp [h]
  · intro e he
    simp [runSubagent, he]
  · intro running id h
    have hmem : id ∉ running := by
      intro m
      have hc : running.contains id = true := List.elem_eq_true_of_mem m
      rw [h] at hc
      exact Bool.false_ne_true hc
    have hfilter : running.filter (fun x => x != id) = running :=
      List.filter_eq_self.mpr (fun a ha => bne_iff_ne.mpr (fun e => hmem (e ▸ ha)))
    have hpop : tasksPop (tasksInsert running id) id = running := by
      simp [tasksPop, tasksInsert, h, hmem, List.filter_append, hfilter]
    exact ⟨hpop, by rw [hpop]⟩

/-- A delegate inference oracle that raises immediately. -/
def provRaise : Nat → Except String LLMResponse := fun _ => .error "boom"

/-- C7 witness: a delegate whose first inference call raises still emits
exactly one announcement, a failure-tagged one; insert-then-pop of a
fresh id restores the live count. -/
theorem subagent_one_announcement_and_count_restored_witness :
    (runSubagent provRaise (fun _ _ => "") "s" "t" "l" ("cli", "direct")).length = 1 ∧
    runSubagent provRaise (fun _ _ => "") "s" "t" "l" ("cli", "direct") =
      [announceResult "l" "t" "Error: boom" ("cli", "direct") "error"] ∧
    (tasksPop (tasksInsert ["a"] "b") "b").length = 1 := by
  have h := subagent_one_announcement_and_count_restored provRaise (fun _ _ => "")
    "s" "t" "l" ("cli", "direct")
  have hloop : runSubLoop provRaise (fun _ _ => "") SUBAGENT_MAX_ITERATIONS
      [Msg.basic "system" "s", Msg.basic "user" "t"] 0 = .error "boom" := by
    rw [runSubLoop]
    simp [provRaise, SUBAGENT_MAX_ITERATIONS]
  refine ⟨h.1, h.2.1 "boom" hloop, ?_⟩
  have := (h.2.2 ["a"] "b" (by decide)).2
  simpa using this

/-- When the loop has budget, the next inference call receives exactly
the current message list. -/
theorem runReact_first_input (p : Nat → LLMResponse) (e : String → JVal → String)
    (mi : Nat) (msgs : List Msg) (i : Nat) (h : i < mi) :
    (runReact p e mi msgs i).call_inputs.head? = some msgs := by
  rw [runReact]
  rw [dif_pos h]
  by_cases htc : (p i).has_tool_calls = true
  · rw [if_pos htc]; rfl
  · rw [if_neg htc]; rfl

/-- When the loop has budget, at least one inference call is made. -/
theorem runReact_calls_pos (p : Nat → LLMResponse) (e : String → JVal → String)
    (mi : Nat) (msgs : List Msg) (i : Nat) (h : i < mi) :
    1 ≤ (runReact p e mi msgs i).calls := by
  rw [runReact]
  rw [dif_pos h]
  by_cases htc : (p i).has_tool_calls = true
  · rw [if_pos htc]
    exact (show 1 ≤ (runReact p e mi ((execToolCalls e
        (addAssistantMessage msgs (p i).content (p i).tool_calls
          (p i).reasoning_content) (p i).tool_calls).1 ++
        [Msg.basic "user" "Reflect on the results and decide next steps."])
        (i + 1)).calls + 1 by omega)
  · rw [if_neg htc]

/-- C10: `Session.get_history` with its default window (50, what the
loop's call site passes) returns the `min(len, 50)` most recent stored
messages, each projected to exactly `{role, content}` (timestamps and
tool-usage annotations stripped) — older messages stay in
`session.messages` but are excluded; and the message list handed to the
first inference call of a `_process_message` run (below the
consolidation threshold) embeds exactly that history. -/
theorem get_history_window_and_call_site :
    (∀ (s : Session),
      (Session.get_history s GET_HISTORY_DEFAULT).length = min s.messages.length 50 ∧
      Session.get_history s GET_HISTORY_DEFAULT =
        (s.messages.drop (s.messages.length - 50)).map
          (fun m => { role := m.role, content := m.content })) ∧
    (∀ (provider : Nat → LLMResponse) (execute : String → JVal → String)
        (env : ConsolidateEnv) (mi w : Nat) (sp content : String)
        (session : Session) (mem0 : MemFiles),
      pyLower (pyStrip content) ≠ "/new" → pyLower (pyStrip content) ≠ "/help" →
      session.messages.length ≤ w → 0 < mi →
      ∃ r, (processMessage provider execute env mi w sp content session mem0).react
          = some r ∧
        r.call_inputs.head? =
          some (buildMessages sp (Session.get_history session GET_HISTORY_DEFAULT)
            content)) := by
  constructor
  · intro s
    unfold Session.get_history GET_HISTORY_DEFAULT pySliceLast
    by_cases hl : s.messages.length > 50
    · rw [if_pos hl]
      constructor
      · simp
        omega
      · simp
    · rw [if_neg hl]
      have h50 : s.messages.length - 50 = 0 := by omega
      constructor
      · simp
        omega
      · rw [h50, List.drop_zero]
  · intro provider execute env mi w sp content session mem0 h1 h2 h3 h4
    have hb1 : (pyLower (pyStrip content) == "/new") = false := by
      simp [h1]
    have hb2 : (pyLower (pyStrip content) == "/help") = false := by
      simp [h2]
    have hpre : preLoopState env w session mem0 = initialConsState session mem0 := by
      unfold preLoopState
      rw [if_neg (by omega)]
    have hmsgs : loopMessages env w sp content session mem0 =
        buildMessages sp (Session.get_history session GET_HISTORY_DEFAULT) content := by
      unfold loopMessages
      rw [hpre]
      rfl
    unfold processMessage
    simp only [hb1, hb2, Bool.false_eq_true, if_false]
    refine ⟨runReact provider execute mi (loopMessages env w sp content session mem0) 0,
      rfl, ?_⟩
    rw [runReact_first_input provider execute mi _ 0 h4, hmsgs]

/-- A property error surfaces in the object-fields recursion of
`_validate`. -/
theorem mem_validateFields (props : List (String × JSchema)) (path k : String)
    (v2 : JVal) (sub : JSchema) (err : String) :
    ∀ (fields : List (String × JVal)), (k, v2) ∈ fields →
      lookupSchema props k = some sub →
      err ∈ validate v2 sub (childPath path k) →
      err ∈ validateFields fields props path := by
  intro fields
  induction fields with
  | nil => intro h; exact absurd h (List.not_mem_nil _)
  | cons p rest ih =>
      intro hmem hlk herr
      rcases List.mem_cons.mp hmem with heq | hrest
      · cases p
        injection heq with h1 h2
        subst h1
        subst h2
        simp only [validateFields, hlk]
        exact List.mem_append_left _ herr
      · cases p
        simp only [validateFields]
        exact List.mem_append_right _ (ih hrest hlk herr)

/-- An item error surfaces in the array-items recursion of `_validate`. -/
theorem mem_validateItems (isch : JSchema) (path : String) (err : String) :
    ∀ (items : List JVal) (j i : Nat) (h : i < items.length),
      err ∈ validate (items.get ⟨i, h⟩) isch (itemPath path (j + i)) →
      err ∈ validateItems items isch path j := by
  intro items
  induction items with
  | nil => intro j i h; exact absurd h (by simp)
  | cons x rest ih =>
      intro j i h herr
      cases i with
      | zero =>
          simp only [List.get] at herr
          simp only [validateItems]
          exact List.mem_append_left _ (by simpa using herr)
      | succ n =>
          have hn : n < rest.length := by simpa using h
          have hidx : j + (n + 1) = (j + 1) + n := by omega
          rw [hidx] at herr
          simp only [validateItems]
          exact List.mem_append_right _ (ih (j + 1) n hn (by simpa using herr))

/-- Unfolding of `_validate` when the early type check passes. -/
theorem validate_not_typefail (v : JVal) (s : JSchema) (path : String)
    (h : typeCheckFails s.type? v = false) :
    validate v s path =
      enumErrs v s path ++ numErrs v s path ++ strErrs v s path ++
      (if s.type? == some "object" then
        match v with
        | .obj fields =>
            requiredErrs s.required fields path ++ validateFields fields s.properties path
        | _ => []
       else []) ++
      (if s.type? == some "array" then
        match s.items?, v with
        | some isch, .arr items => validateItems items isch path 0
        | _, _ => []
       else []) := by
  unfold validate
  rw [if_neg (by simp [h])]

/-- Unfolding of `_validate` when the early type check fails. -/
theorem validate_typefail (v : JVal) (s : JSchema) (path : String)
    (h : typeCheckFails s.type? v = true) :
    validate v s path = [labelOf path ++ " should be " ++ s.type?.getD ""] := by
  unfold validate
  rw [if_pos (by simp [h])]

/-- C2: when a registered tool's schema validation returns a non-empty
error list, `ToolRegistry.execute` returns the textual validation-error
message and the tool's `execute` body is never consulted (the result is
the same under any body with the same schema); and `_validate` is the
recursive checker: failing type checks, missing required fields, enum
non-membership, violated numeric minimum/maximum, violated string length
bounds, and errors arising inside nested object properties and array
items all surface in its result. -/
theorem invalid_params_block_execution :
    (∀ (reg : ToolRegistry) (name : String) (t : Tool) (params : JVal)
        (errs : List String),
      lookupTool reg name = some t →
      validateParams t.parameters params = .ok errs → errs ≠ [] →
      registryExecute reg name params =
        "Error: Invalid parameters for tool '" ++ name ++ "': " ++
          String.intercalate "; " errs ∧
      (∀ (reg2 : ToolRegistry) (t2 : Tool), lookupTool reg2 name = some t2 →
        t2.parameters = t.parameters →
        registryExecute reg2 name params = registryExecute reg name params)) ∧
    (∀ (v : JVal) (s : JSchema) (path ts : String), s.type? = some ts →
      typeInMap ts = true → isinstanceOf v ts = false →
      validate v s path = [labelOf path ++ " should be " ++ ts]) ∧
    (∀ (s : JSchema) (fields : List (String × JVal)) (k path : String),
      s.type? = some "object" → k ∈ s.required → hasKeyJ fields k = false →
      ("missing required " ++ childPath path k) ∈ validate (.obj fields) s path) ∧
    (∀ (v : JVal) (s : JSchema) (path : String) (es : List JVal),
      s.enum? = some es → typeCheckFails s.type? v = false →
      es.any (fun e => pyEq v e) = false →
      (labelOf path ++ " must be one of " ++ "[" ++ pyReprList es ++ "]") ∈
        validate v s path) ∧
    (∀ (n m : Int) (s : JSchema) (path : String), s.type? = some "integer" →
      s.minimum? = some m → n < m →
      (labelOf path ++ " must be >= " ++ toString m) ∈ validate (.int n) s path) ∧
    (∀ (n m : Int) (s : JSchema) (path : String), s.type? = some "number" →
      s.maximum? = some m → n > m →
      (labelOf path ++ " must be <= " ++ toString m) ∈ validate (.int n) s path) ∧
    (∀ (sv : String) (nl : Nat) (s : JSchema) (path : String),
      s.type? = some "string" → s.minLength? = some nl → sv.length < nl →
      (labelOf path ++ " must be at least " ++ toString nl ++ " chars") ∈
        validate (.str sv) s path) ∧
    (∀ (sv : String) (nl : Nat) (s : JSchema) (path : String),
      s.type? = some "string" → s.maxLength? = some nl → sv.length > nl →
      (labelOf path ++ " must be at most " ++ toString nl ++ " chars") ∈
        validate (.str sv) s path) ∧
    (∀ (s : JSchema) (fields : List (String × JVal)) (k path : String) (v2 : JVal)
        (sub : JSchema) (err : String),
      s.type? = some "object" → lookupSchema s.properties k = some sub →
      (k, v2) ∈ fields → err ∈ validate v2 sub (childPath path k) →
      err ∈ validate (.obj fields) s path) ∧
    (∀ (s : JSchema) (items : List JVal) (path : String) (isch : JSchema)
        (err : String) (i : Nat) (h : i < items.length),
      s.type? = some "array" → s.items? = some isch →
      err ∈ validate (items.get ⟨i, h⟩) isch (itemPath path i) →
      err ∈ validate (.arr items) s path) := by
  refine ⟨?_, ?_, ?_, ?_, ?_, ?_, ?_, ?_, ?_, ?_⟩
  · intro reg name t params errs hlk hvp hne
    have hb : (errs != []) = true := bne_iff_ne.mpr hne
    constructor
    · simp [registryExecute, hlk, hvp, hb]
    · intro reg2 t2 hlk2 hpp
      have hvp2 : validateParams t2.parameters params = .ok errs := by rw [hpp, hvp]
      simp [registryExecute, hlk, hlk2, hvp, hvp2, hb]
  · intro v s path ts hs htm hio
    have htc : typeCheckFails s.type? v = true := by
      simp [typeCheckFails, hs, htm, hio]
    rw [validate_typefail v s path htc, hs]
    rfl
  · intro s fields k path hs hk hkey
    have htc : typeCheckFails s.type? (.obj fields) = false := by
      simp [typeCheckFails, hs, isinstanceOf, typeInMap]
    have hobj : (s.type? == some "object") = true := by simp [hs]
    have hmem : ("missing required " ++ childPath path k) ∈
        requiredErrs s.required fields path :=
      List.mem_filterMap.mpr ⟨k, hk, by simp [hkey]⟩
    rw [validate_not_typefail _ s path htc, if_pos hobj]
    exact List.mem_append_left _ (List.mem_append_right _ (List.mem_append_left _ hmem))
  · intro v s path es hes htc hany
    have hmem : (labelOf path ++ " must be one of " ++ "[" ++ pyReprList es ++ "]") ∈
        enumErrs v s path := by
      simp [enumErrs, hes, hany]
    rw [validate_not_typefail v s path htc]
    exact List.mem_append_left _ (List.mem_append_left _ (List.mem_append_left _
      (List.mem_append_left _ hmem)))
  · intro n m s path hs hm hlt
    have htc : typeCheckFails s.type? (.int n) = false := by
      simp [typeCheckFails, hs, isinstanceOf, typeInMap]
    have hmem : (labelOf path ++ " must be >= " ++ toString m) ∈
        numErrs (.int n) s path := by
      simp [numErrs, hs, hm, numOf, hlt]
    rw [validate_not_typefail _ s path htc]
    exact List.mem_append_left _ (List.mem_append_left _ (List.mem_append_left _
      (List.mem_append_right _ hmem)))
  · intro n m s path hs hm hgt
    have htc : typeCheckFails s.type? (.int n) = false := by
      simp [typeCheckFails, hs, isinstanceOf, typeInMap]
    have hmem : (labelOf path ++ " must be <= " ++ toString m) ∈
        numErrs (.int n) s path := by
      simp [numErrs, hs, hm, numOf, hgt, List.mem_append]
    rw [validate_not_typefail _ s path htc]
    exact List.mem_append_left _ (List.mem_append_left _ (List.mem_append_left _
      (List.mem_append_right _ hmem)))
  · intro sv nl s path hs hn hlt
    have htc : typeCheckFails s.type? (.str sv) = false := by
      simp [typeCheckFails, hs, isinstanceOf, typeInMap]
    have hmem : (labelOf path ++ " must be at least " ++ toString nl ++ " chars") ∈
        strErrs (.str sv) s path := by
      simp [strErrs, hs, hn, strOf, hlt]
    rw [validate_not_typefail _ s path htc]
    exact List.mem_append_left _ (List.mem_append_left _ (List.mem_append_right _ hmem))
  · intro sv nl s path hs hn hgt
    have htc : typeCheckFails s.type? (.str sv) = false := by
      simp [typeCheckFails, hs, isinstanceOf, typeInMap]
    have hmem : (labelOf path ++ " must be at most " ++ toString nl ++ " chars") ∈
        strErrs (.str sv) s path := by
      simp [strErrs, hs, hn, strOf, hgt, List.mem_append]
    rw [validate_not_typefail _ s path htc]
    exact List.mem_append_left _ (List.mem_append_left _ (List.mem_append_right _ hmem))
  · intro s fields k path v2 sub err hs hlk hf herr
    have htc : typeCheckFails s.type? (.obj fields) = false := by
      simp [typeCheckFails, hs, isinstanceOf, typeInMap]
    have hobj : (s.type? == some "object") = true := by simp [hs]
    have hmem : err ∈ validateFields fields s.properties path :=
      mem_validateFields s.properties path k v2 sub err fields hf hlk herr
    rw [validate_not_typefail _ s path htc, if_pos hobj]
    exact List.mem_append_left _ (List.mem_append_right _ (List.mem_append_right _ hmem))
  · intro s items path isch err i h hs hit herr
    have htc : typeCheckFails s.type? (.arr items) = false := by
      simp [typeCheckFails, hs, isinstanceOf, typeInMap]
    have harr : (s.type? == some "array") = true := by simp [hs]
    have herr0 : err ∈ validate (items.get ⟨i, h⟩) isch (itemPath path (0 + i)) := by
      rw [Nat.zero_add]; exact herr
    have hmem : err ∈ validateItems items isch path 0 :=
      mem_validateItems isch path err items 0 i h herr0
    rw [validate_not_typefail _ s path htc, if_pos harr, hit]
    exact List.mem_append_right _ hmem

/-- A schema declaring a bare "integer" with `minimum 5`. -/
def intMinSchema : JSchema := .mk (some "integer") none (some 5) none none none [] [] none

/-- A schema declaring a "number" with `maximum 5`. -/
def numMaxSchema : JSchema := .mk (some "number") none none (some 5) none none [] [] none

/-- A schema declaring a "string" with length bounds 2..4. -/
def strLenSchema : JSchema := .mk (some "string") none none none (some 2) (some 4) [] [] none

/-- A schema with only an `enum` constraint. -/
def enumOnlySchema : JSchema := .mk none (some [.str "a"]) none none none none [] [] none

/-- A bare "integer" item schema. -/
def intItemSchema : JSchema := .mk (some "integer") none none none none none [] [] none

/-- An "array" schema with integer items. -/
def arrIntSchema : JSchema := .mk (some "array") none none none none none [] [] (some intItemSchema)

/-- A tool with the `read_file` parameter schema and a body that runs. -/
def demoValTool : Tool :=
  { name := "rf", description := "demo", parameters := readFileSchema
    run := fun _ => .ok "ran" }

/-- A registry holding `demoValTool` under "rf". -/
def demoValReg : ToolRegistry := [("rf", demoValTool)]

/-- C2 witness: each checked behaviour at a concrete input — failing
validation blocks the body and yields the validation text; type,
required, enum, minimum, maximum, minLength, maxLength violations and
nested object/array errors all surface. -/
theorem invalid_params_block_execution_witness :
    registryExecute demoValReg "rf" (.obj []) =
      "Error: Invalid parameters for tool 'rf': missing required path" ∧
    validate (.str "x") intMinSchema "" = ["parameter should be integer"] ∧
    "missing required path" ∈ validate (.obj []) readFileSchema "" ∧
    "parameter must be one of ['a']" ∈ validate (.str "b") enumOnlySchema "" ∧
    "parameter must be >= 5" ∈ validate (.int 3) intMinSchema "" ∧
    "parameter must be <= 5" ∈ validate (.int 7) numMaxSchema "" ∧
    "parameter must be at least 2 chars" ∈ validate (.str "a") strLenSchema "" ∧
    "parameter must be at most 4 chars" ∈ validate (.str "abcde") strLenSchema "" ∧
    "path should be string" ∈ validate (.obj [("path", .int 1)]) readFileSchema "" ∧
    "[0] should be integer" ∈ validate (.arr [.str "x"]) arrIntSchema "" := by
  have h := invalid_params_block_execution
  refine ⟨?_, ?_, ?_, ?_, ?_, ?_, ?_, ?_, ?_, ?_⟩
  · exact (h.1 demoValReg "rf" demoValTool (.obj []) ["missing required path"]
      rfl rfl (by decide)).1
  · exact h.2.1 (.str "x") intMinSchema "" "integer" rfl rfl rfl
  · exact h.2.2.1 readFileSchema [] "path" "" rfl (by decide) rfl
  · exact h.2.2.2.1 (.str "b") enumOnlySchema "" [.str "a"] rfl rfl rfl
  · exact h.2.2.2.2.1 3 5 intMinSchema "" rfl rfl (by decide)
  · exact h.2.2.2.2.2.1 7 5 numMaxSchema "" rfl rfl (by decide)
  · exact h.2.2.2.2.2.2.1 "a" 2 strLenSchema "" rfl rfl (by decide)
  · exact h.2.2.2.2.2.2.2.1 "abcde" 4 strLenSchema "" rfl rfl (by decide)
  · exact h.2.2.2.2.2.2.2.2.1 readFileSchema [("path", .int 1)] "path" "" (.int 1)
      (.mk (some "string") none none none none none [] [] none)
      "path should be string" rfl rfl (List.mem_cons_self _ _)
      (List.mem_singleton.mpr rfl)
  · exact h.2.2.2.2.2.2.2.2.2 arrIntSchema [.str "x"] "" intItemSchema
      "[0] should be integer" 0 (by decide) rfl rfl (List.mem_singleton.mpr rfl)

/-- A 3-message session message list for consolidation runs. -/
def demoConsMsgs : List SessMsg :=
  [{ role := "user", content := "a", timestamp := "t1", tools_used := none },
   { role := "assistant", content := "b", timestamp := "t2", tools_used := none },
   { role := "user", content := "c", timestamp := "t3", tools_used := none }]

/-- A consolidation environment in which inference, parsing and the
memory-file writes all succeed but the final session save raises. -/
def demoConsEnv : ConsolidateEnv :=
  { chat := .ok "{}"
    parse := fun _ => .ok { history_entry := none, memory_update := none }
    append_history_raises := false
    write_long_term_raises := false
    save_raises := true }

/-- The starting consolidation state over `demoConsMsgs`. -/
def demoConsState : ConsolidateState :=
  { session_messages := demoConsMsgs, mem := { long_term := "", history := [] }
    disk_messages := demoConsMsgs, chat_calls := 0, logged_error := false }

/-- C9 counterexample: with a memory window of 4 (retained tail 2) and a
session of 3 messages, a fault in the final session-file save — a
file-write failure — is caught and logged, yet the in-memory session's
message list has already been trimmed by that call: it is not left
unchanged, contradicting the claim for this fault class. -/
theorem consolidation_save_fault_changes_session :
    (consolidate demoConsEnv 4 false demoConsState).session_messages
      ≠ demoConsState.session_messages ∧
    (consolidate demoConsEnv 4 false demoConsState).logged_error = true ∧
    (consolidate demoConsEnv 4 false demoConsState).disk_messages
      = demoConsState.disk_messages := by
  refine ⟨by decide, rfl, rfl⟩

set_option maxHeartbeats 1600000 in
/-- C9 (amended): `_consolidate_memory` catches every fault and never
propagates one (it is a total function here); a fault in the inference
call, in JSON parsing, or in either memory-file write leaves the
session's message list (and its persisted file) unchanged; a fault in
the final session save is likewise caught and logged and leaves the
persisted session unchanged, but it strikes after the in-memory trim,
so the live message list is already truncated by that call. -/
theorem consolidation_fault_effects (env : ConsolidateEnv) (w : Nat) (a : Bool)
    (st : ConsolidateState) :
    (∀ e, env.chat = .error e →
      (consolidate env w a st).session_messages = st.session_messages ∧
      (consolidate env w a st).mem = st.mem ∧
      (consolidate env w a st).disk_messages = st.disk_messages) ∧
    (∀ raw e, env.chat = .ok raw → env.parse (stripFences raw) = .error e →
      (consolidate env w a st).session_messages = st.session_messages ∧
      (consolidate env w a st).mem = st.mem ∧
      (consolidate env w a st).disk_messages = st.disk_messages) ∧
    (∀ raw res, env.chat = .ok raw → env.parse (stripFences raw) = .ok res →
      truthyOpt res.history_entry = true → env.append_history_raises = true →
      (consolidate env w a st).session_messages = st.session_messages ∧
      (consolidate env w a st).mem = st.mem ∧
      (consolidate env w a st).disk_messages = st.disk_messages) ∧
    (∀ raw res, env.chat = .ok raw → env.parse (stripFences raw) = .ok res →
      env.append_history_raises = false →
      truthyOpt res.memory_update = true →
      res.memory_update.getD "" ≠ st.mem.long_term →
      env.write_long_term_raises = true →
      (consolidate env w a st).session_messages = st.session_messages ∧
      (consolidate env w a st).mem.long_term = st.mem.long_term ∧
      (consolidate env w a st).disk_messages = st.disk_messages) ∧
    (env.save_raises = true →
      (consolidate env w a st).disk_messages = st.disk_messages) := by
  refine ⟨?_, ?_, ?_, ?_, ?_⟩
  · intro e he
    unfold consolidate
    repeat' split
    all_goals first
      | exact ⟨rfl, rfl, rfl⟩
      | (refine ⟨?_, ?_, ?_⟩ <;> split <;> rfl)
      | (simp_all; done)
      | (simp_all; refine ⟨?_, ?_, ?_⟩ <;> split <;> rfl)
  · intro raw e hc hp
    unfold consolidate
    repeat' split
    all_goals first
      | exact ⟨rfl, rfl, rfl⟩
      | (refine ⟨?_, ?_, ?_⟩ <;> split <;> rfl)
      | (simp_all; done)
      | (simp_all; refine ⟨?_, ?_, ?_⟩ <;> split <;> rfl)
  · intro raw res hc hp htr har
    unfold consolidate
    repeat' split
    all_goals first
      | exact ⟨rfl, rfl, rfl⟩
      | (refine ⟨?_, ?_, ?_⟩ <;> split <;> rfl)
      | (simp_all; done)
      | (simp_all; refine ⟨?_, ?_, ?_⟩ <;> split <;> rfl)
  · intro raw res hc hp har htu hne hwr
    unfold consolidate
    repeat' split
    all_goals first
      | exact ⟨rfl, rfl, rfl⟩
      | (refine ⟨?_, ?_, ?_⟩ <;> split <;> rfl)
      | (refine ⟨?_, ?_, ?_⟩ <;>
          (simp [apply_ite ConsolidateState.session_messages,
            apply_ite ConsolidateState.disk_messages,
            apply_ite ConsolidateState.mem, apply_ite MemFiles.long_term]; done))
      | (simp_all; done)
      | (simp_all; refine ⟨?_, ?_, ?_⟩ <;> split <;> rfl)
  · intro hsr
    unfold consolidate
    repeat' split
    all_goals first
      | rfl
      | (split <;> rfl)
      | (simp_all [apply_ite ConsolidateState.disk_messages,
          apply_ite ConsolidateState.mem]; done)
      | (simp_all [apply_ite ConsolidateState.disk_messages,
          apply_ite ConsolidateState.mem]; split <;> rfl)

/-- A consolidation environment whose inference call raises. -/
def envChatFail : ConsolidateEnv :=
  { chat := .error "api down"
    parse := fun _ => .ok { history_entry := none, memory_update := none }
    append_history_raises := false
    write_long_term_raises := false
    save_raises := false }

/-- C9 witness: an inference fault leaves the session untouched; a
session-save fault leaves the persisted session untouched. -/
theorem consolidation_fault_effects_witness :
    (consolidate envChatFail 4 false demoConsState).session_messages
      = demoConsState.session_messages ∧
    (consolidate demoConsEnv 4 false demoConsState).disk_messages
      = demoConsState.disk_messages := by
  constructor
  · exact ((consolidation_fault_effects envChatFail 4 false demoConsState).1
      "api down" rfl).1
  · exact (consolidation_fault_effects demoConsEnv 4 false demoConsState).2.2.2.2 rfl

/-- A filesystem whose canonicalisation is the identity (absolute,
symlink-free paths), with every path an existing regular file. -/
def fsDemo : FileSystem :=
  { resolve := fun s => s, pathExists := fun _ => true
    is_file := fun _ => true, read_text := fun _ => "data" }

/-- A registry holding the sandboxed `read_file` tool (workspace
`/ws`). -/
def sandboxReg : ToolRegistry := [("read_file", readFileTool fsDemo (some "/ws"))]

/-- A model that always requests `read_file` on the out-of-sandbox path
`/etc/x`. -/
def sandboxProvider : Nat → LLMResponse := fun _ =>
  { content := none
    tool_calls := [{ id := "c1", name := "read_file"
                     arguments := .obj [("path", .str "/etc/x")] }]
    reasoning_content := none }

/-- C6 counterexample: when the sandbox-violating `read_file` call
arrives on the **last** allowed iteration (`max_iterations = 1`), the
tool-result turn beginning with "Error:" is appended, but the loop does
*not* invoke the model again — it terminates the pass at the iteration
ceiling (exactly one inference call is ever made), contradicting the
unqualified "invokes the model again". -/
theorem sandbox_error_at_ceiling_no_reinvocation :
    (runReact sandboxProvider (registryExecute sandboxReg) 1 [] 0).calls = 1 ∧
    (runReact sandboxProvider (registryExecute sandboxReg) 1 [] 0).messages.get? 1 =
      some { role := "tool"
             content := "Error: Path /etc/x is outside allowed directory /ws"
             tool_calls := [], tool_call_id := some "c1", name := some "read_file"
             reasoning_content := none } := by
  have hrest : ∀ msgs, runReact sandboxProvider (registryExecute sandboxReg) 1 msgs 1 =
      { final_content := none, iteration := 1, calls := 0, messages := msgs
        call_inputs := [], tools_used := [] } := fun msgs => by
    rw [runReact]
    rw [dif_neg (by omega)]
  have houter : runReact sandboxProvider (registryExecute sandboxReg) 1 [] 0 =
      { final_content := none, iteration := 1, calls := 1
        messages :=
          [{ role := "assistant", content := ""
             tool_calls := [{ id := "c1", name := "read_file"
                              arguments := .obj [("path", .str "/etc/x")] }]
             tool_call_id := none, name := none, reasoning_content := none },
           { role := "tool"
             content := "Error: Path /etc/x is outside allowed directory /ws"
             tool_calls := [], tool_call_id := some "c1", name := some "read_file"
             reasoning_content := none },
           Msg.basic "user" "Reflect on the results and decide next steps."]
        call_inputs := [[]], tools_used := ["read_file"] } := by
    rw [runReact]
    simp only [dif_pos (show (0 : Nat) < 1 by omega)]
    rw [if_pos (by decide), hrest]
    rfl
  rw [houter]
  exact ⟨rfl, rfl⟩

/-- C6 (amended): a filesystem-tool invocation under an enabled sandbox
whose path resolves outside the sandbox directory yields a result
beginning with "Error:" (the caught `PermissionError` text), both
directly and through the registry; and whenever such a tool call arrives
with at least one iteration of budget left, the loop appends the
tool-result turn and invokes the model again with that turn included —
at the iteration ceiling the turn is still appended but the pass
terminates instead (see the counterexample). -/
theorem sandbox_error_and_loop_continues (fs : FileSystem) (ws path : String)
    (hout : pyStartswith (fs.resolve path) (fs.resolve ws) = false) :
    readFileExecute fs (some ws) path =
      "Error: " ++ ("Path " ++ path ++ " is outside allowed directory " ++ ws) ∧
    (∃ rest, readFileExecute fs (some ws) path = "Error:" ++ rest) ∧
    (∀ reg : ToolRegistry, lookupTool reg "read_file" = some (readFileTool fs (some ws)) →
      registryExecute reg "read_file" (.obj [("path", .str path)]) =
        "Error: " ++ ("Path " ++ path ++ " is outside allowed directory " ++ ws)) ∧
    (∀ (provider : Nat → LLMResponse) (reg : ToolRegistry) (mi i : Nat)
        (msgs : List Msg) (id : String) (c rc : Option String),
      lookupTool reg "read_file" = some (readFileTool fs (some ws)) →
      provider i = { content := c
                     tool_calls := [{ id := id, name := "read_file"
                                      arguments := .obj [("path", .str path)] }]
                     reasoning_content := rc } →
      i + 1 < mi →
      2 ≤ (runReact provider (registryExecute reg) mi msgs i).calls ∧
      ∃ msgs', (runReact provider (registryExecute reg) mi msgs i).call_inputs.get? 1
          = some msgs' ∧
        { role := "tool"
          content := "Error: " ++ ("Path " ++ path ++ " is outside allowed directory " ++ ws)
          tool_calls := [], tool_call_id := some id, name := some "read_file"
          reasoning_content := none } ∈ msgs') := by
  have hres : resolvePath fs path (some ws) =
      .error ("Path " ++ path ++ " is outside allowed directory " ++ ws) := by
    show (if (!pyStartswith (fs.resolve path) (fs.resolve ws)) = true then
        Except.error ("Path " ++ path ++ " is outside allowed directory " ++ ws)
      else Except.ok (fs.resolve path)) =
      Except.error ("Path " ++ path ++ " is outside allowed directory " ++ ws)
    rw [if_pos (by rw [hout]; rfl)]
  have hA : readFileExecute fs (some ws) path =
      "Error: " ++ ("Path " ++ path ++ " is outside allowed directory " ++ ws) := by
    unfold readFileExecute
    rw [hres]
  have hB : ∀ reg : ToolRegistry,
      lookupTool reg "read_file" = some (readFileTool fs (some ws)) →
      registryExecute reg "read_file" (.obj [("path", .str path)]) =
        "Error: " ++ ("Path " ++ path ++ " is outside allowed directory " ++ ws) := by
    intro reg hlkup
    have hstep : registryExecute reg "read_file" (.obj [("path", .str path)]) =
        readFileExecute fs (some ws) path := by
      unfold registryExecute
      rw [hlkup]
      rfl
    rw [hstep, hA]
  refine ⟨hA, ⟨" " ++ ("Path " ++ path ++ " is outside allowed directory " ++ ws),
    by
      rw [hA]
      exact String.append_assoc "Error:" " "
        ("Path " ++ path ++ " is outside allowed directory " ++ ws)⟩, hB, ?_⟩
  intro provider reg mi i msgs id c rc hlkup hpi hlt
  have hi : i < mi := by omega
  have hg0 : ∀ (l : List (List Msg)), l.get? 0 = l.head? := fun l => by
    cases l <;> rfl
  have htc : ({ content := c
                tool_calls := [{ id := id, name := "read_file"
                                 arguments := JVal.obj [("path", JVal.str path)] }]
                reasoning_content := rc } : LLMResponse).has_tool_calls = true := rfl
  rw [runReact]
  simp only [dif_pos hi, hpi]
  rw [if_pos htc]
  constructor
  · have hpos := runReact_calls_pos provider (registryExecute reg) mi
      ((execToolCalls (registryExecute reg)
        (addAssistantMessage msgs c
          [{ id := id, name := "read_file", arguments := .obj [("path", .str path)] }]
          rc)
        [{ id := id, name := "read_file", arguments := .obj [("path", .str path)] }]).1 ++
        [Msg.basic "user" "Reflect on the results and decide next steps."])
      (i + 1) (by omega)
    exact (show 2 ≤ (runReact provider (registryExecute reg) mi
      ((execToolCalls (registryExecute reg)
        (addAssistantMessage msgs c
          [{ id := id, name := "read_file", arguments := .obj [("path", .str path)] }]
          rc)
        [{ id := id, name := "read_file", arguments := .obj [("path", .str path)] }]).1 ++
        [Msg.basic "user" "Reflect on the results and decide next steps."])
      (i + 1)).calls + 1 by omega)
  · refine ⟨(execToolCalls (registryExecute reg)
        (addAssistantMessage msgs c
          [{ id := id, name := "read_file", arguments := .obj [("path", .str path)] }]
          rc)
        [{ id := id, name := "read_file", arguments := .obj [("path", .str path)] }]).1 ++
        [Msg.basic "user" "Reflect on the results and decide next steps."], ?_, ?_⟩
    · have hfi := runReact_first_input provider (registryExecute reg) mi
        ((execToolCalls (registryExecute reg)
          (addAssistantMessage msgs c
            [{ id := id, name := "read_file", arguments := .obj [("path", .str path)] }]
            rc)
          [{ id := id, name := "read_file", arguments := .obj [("path", .str path)] }]).1 ++
          [Msg.basic "user" "Reflect on the results and decide next steps."])
        (i + 1) (by omega)
      exact (hg0 _).trans hfi
    · show ({ role := "tool",
              content := "Error: " ++
                ("Path " ++ path ++ " is outside allowed directory " ++ ws),
              tool_calls := [], tool_call_id := some id,
              name := some "read_file",
              reasoning_content := none } : Msg) ∈
          (addAssistantMessage msgs c
            [{ id := id, name := "read_file", arguments := .obj [("path", .str path)] }]
            rc ++
            [{ role := "tool",
               content := registryExecute reg "read_file" (.obj [("path", .str path)]),
               tool_calls := [], tool_call_id := some id, name := some "read_file",
               reasoning_content := none }]) ++
          [Msg.basic "user" "Reflect on the results and decide next steps."]
      rw [hB reg hlkup]
      exact List.mem_append_left _ (List.mem_append_right _ (List.mem_singleton.mpr rfl))

/-- C6 witness: the concrete out-of-sandbox read yields the "Error:"
text, and with budget left (`max_iterations = 3`) the loop makes a
second inference call. -/
theorem sandbox_error_and_loop_continues_witness :
    readFileExecute fsDemo (some "/ws") "/etc/x" =
      "Error: Path /etc/x is outside allowed directory /ws" ∧
    2 ≤ (runReact sandboxProvider (registryExecute sandboxReg) 3 [] 0).calls := by
  have h := sandbox_error_and_loop_continues fsDemo "/ws" "/etc/x" (by decide)
  constructor
  · exact h.1
  · exact (h.2.2.2 sandboxProvider sandboxReg 3 0 [] "c1" none none rfl rfl
      (by omega)).1

/-- A model that immediately answers with plain text. -/
def textProvider : Nat → LLMResponse := fun _ =>
  { content := some "ok", tool_calls := [], reasoning_content := none }

/-- A consolidation environment with no faults. -/
def envAllOk : ConsolidateEnv :=
  { chat := .ok "{}"
    parse := fun _ => .ok { history_entry := none, memory_update := none }
    append_history_raises := false
    write_long_term_raises := false
    save_raises := false }

/-- C10 witness: the history window and the call site at concrete
inputs — `demoSession` (2 messages) yields 2 history entries, and a
`_process_message` run on it hands exactly that history to the first
inference call. -/
theorem get_history_window_and_call_site_witness :
    (Session.get_history demoSession GET_HISTORY_DEFAULT).length = 2 ∧
    (∃ r, (processMessage textProvider (fun _ _ => "") envAllOk 3 50 "sys" "hey"
        demoSession { long_term := "", history := [] }).react = some r ∧
      r.call_inputs.head? = some (buildMessages "sys"
        (Session.get_history demoSession GET_HISTORY_DEFAULT) "hey")) := by
  constructor
  · have h := (get_history_window_and_call_site).1 demoSession
    rw [h.2]
    rfl
  · exact (get_history_window_and_call_site).2 textProvider (fun _ _ => "") envAllOk
      3 50 "sys" "hey" demoSession { long_term := "", history := [] }
      (by decide) (by decide) (by decide) (by decide)

end Nanobot
